import Mathlib

/-!
Verification of the credential-lifecycle and resilient-invocation core of the
AutoFBtool repository (Google Apps Script).  The JavaScript source is shallowly
embedded: each upstream HTTP interaction is an oracle value supplied through an
environment record (`none` models a thrown exception of the corresponding
helper), the script-properties credential store is an explicit record, and each
flow returns its result together with the batch writes it performs.
-/

namespace AutoFB

/-- Keys of the persistent credential store (`PROP_KEYS` in the source). -/
inductive PropKey
  | userAccessToken
  | pageAccessToken
  | pageId
  | pageName
  | tokenExpiresAt
  | appId
  | appSecret
deriving DecidableEq, Repr

/-- The script-properties credential store.  String-valued keys are
`Option String` (`none` = key absent); the stored expiry is kept as the parsed
millisecond value, with `none` standing for an absent, empty or unparseable
stored string (all of which are falsy on read in the source). -/
structure Store where
  userAccessToken : Option String
  pageAccessToken : Option String
  pageId : Option String
  pageName : Option String
  tokenExpiresAt : Option Nat
  appId : Option String
  appSecret : Option String
deriving DecidableEq, Repr

/-- JavaScript truthiness of a stored string property: absent and empty are
falsy. -/
def truthy : Option String → Bool
  | none => false
  | some s => decide (s ≠ "")

/-- One entry of the `/me/accounts` page list. -/
structure Page where
  id : String
  name : String
  accessToken : String
deriving DecidableEq, Repr

/-- The fields of a `/debug_token` introspection result that the expiry
reconciliation reads (`getTokenInfoFromDebugToken`): absolute expiry and
data-access expiry in epoch seconds, plus the derived relative `expiresIn`. -/
structure IntroInfo where
  dataAccessExpiresAt : Nat
  expiresAt : Nat
  expiresIn : Nat
deriving DecidableEq, Repr

/-- Derived `expiresIn` computed by `getTokenInfoFromDebugToken`
(src/unnamed/part_003 line 73):
`data.expires_at > 0 ? Math.max(0, data.expires_at - now) : 0`. -/
def debugExpiresIn (expiresAt nowSec : Nat) : Int :=
  if 0 < expiresAt then max 0 ((expiresAt : Int) - (nowSec : Int)) else 0

/-- Derived `isLongLived` computed by `getTokenInfoFromDebugToken`
(src/unnamed/part_003 line 74):
`data.expires_at === 0 || (data.expires_at > 0 && (data.expires_at - now) > 24*60*60)`. -/
def debugIsLongLived (expiresAt nowSec : Nat) : Bool :=
  decide (expiresAt = 0) ||
    (decide (0 < expiresAt) && decide ((expiresAt : Int) - (nowSec : Int) > 86400))

/-- Stored-expiry validity check (`isTokenValid` with no token argument,
src/TokenManager.js lines 171-181 and src/unnamed/part_003 lines 173-182):
absent stored expiry is invalid, otherwise valid iff more than 24 hours
(86400000 ms) remain. -/
def isTokenValidStored (expiresAt? : Option Nat) (nowMs : Nat) : Bool :=
  match expiresAt? with
  | none => false
  | some e => decide ((e : Int) - (nowMs : Int) > 86400000)

/-- Modelled from the spec: the Expiry Reconciler
`reconcile(introspection, fallbackExpiresIn)` of section 4.3 — first match
wins: data-access expiry, then token expiry, then `now + fallbackExpiresIn`,
then `now + 60 days`.  Result in epoch milliseconds. -/
def reconcileSpec (info : IntroInfo) (fallbackExpiresIn nowMs : Nat) : Nat :=
  if 0 < info.dataAccessExpiresAt then info.dataAccessExpiresAt * 1000
  else if 0 < info.expiresAt then info.expiresAt * 1000
  else if 0 < fallbackExpiresIn then nowMs + fallbackExpiresIn * 1000
  else nowMs + 5184000 * 1000

/-- Expiry drawn from the introspection result alone, as both branches of
`refreshToken` compute it (src/unnamed/part_003 lines 296-305 and 341-351):
data-access expiry first, then token expiry, else nothing.  The `none` input
models the introspection call throwing (its failure is caught and ignored). -/
def introExpiryMs (info? : Option IntroInfo) : Option Nat :=
  match info? with
  | none => none
  | some i =>
    if 0 < i.dataAccessExpiresAt then some (i.dataAccessExpiresAt * 1000)
    else if 0 < i.expiresAt then some (i.expiresAt * 1000)
    else none

/-- Expiry persisted by the credentialed branch of `refreshToken`
(src/unnamed/part_003 lines 341-354): the introspection-derived value if any,
else `now + expiresIn` from the exchange response when that is nonzero, else
nothing (the source then stores the empty string). -/
def refreshExpiresAtMs (info? : Option IntroInfo) (fallbackExpiresIn nowMs : Nat) :
    Option Nat :=
  match introExpiryMs info? with
  | some v => some v
  | none =>
    if 0 < fallbackExpiresIn then some (nowMs + fallbackExpiresIn * 1000) else none

/-- Expiry computed by `setupTokensFromLongToken`
(src/unnamed/part_003 lines 422-439): absolute token expiry if positive, else
`now` plus the introspection's relative expiry if positive, else the 60-day
default.  The data-access expiry is not consulted. -/
def setupLongExpiresAtMs (info : IntroInfo) (nowMs : Nat) : Nat :=
  if 0 < info.expiresAt then info.expiresAt * 1000
  else if 0 < info.expiresIn then nowMs + info.expiresIn * 1000
  else nowMs + 5184000 * 1000

/-- Expiry computed by `setupTokensFromShortLived`
(src/TokenManager.js lines 397-414): the exchange's relative expiry when it
exceeds 3600 seconds, otherwise the 60-day default (both the short and the
unknown case collapse to 60 days). -/
def setupShortExpiresAtMs (exchangeExpiresIn nowMs : Nat) : Nat :=
  if 3600 < exchangeExpiresIn then nowMs + exchangeExpiresIn * 1000
  else nowMs + 5184000 * 1000

/-- Result of a successful long-lived token exchange
(`exchangeToLongLivedTokenWithCredentials`). -/
structure LongLivedTokenInfo where
  accessToken : String
  expiresIn : Nat
  tokenType : String
deriving DecidableEq, Repr

/-- Upstream oracles consumed by one run of `refreshToken`
(src/unnamed/part_003 lines 268-383).  `none` models the corresponding helper
throwing: a failed exchange, a failed or malformed page lookup, a failed
introspection. -/
structure RefreshEnv where
  exchanged : Option LongLivedTokenInfo
  pages : Option (List Page)
  debugInfo : Option IntroInfo
  nowMs : Nat
deriving DecidableEq, Repr

/-- `refreshToken` (src/unnamed/part_003 lines 268-383), returning the boolean
result, the updated store and the list of batch writes performed on the store
(each batch is the key set of one `setProperties` call; writes to the settings
sheet are outside the credential store and not modelled).  Missing user token,
a throwing helper, or an empty page list all reach the outer catch, which
returns `false`. -/
def refreshToken (st : Store) (env : RefreshEnv) : Bool × Store × List (List PropKey) :=
  if truthy st.userAccessToken = false then (false, st, [])
  else if (truthy st.appId && truthy st.appSecret) = false then
    -- degraded branch: no app credentials, keep the current user token
    match env.pages with
    | none => (false, st, [])
    | some [] => (false, st, [])
    | some (page :: _) =>
      let newExp : Option Nat :=
        match introExpiryMs env.debugInfo with
        | some v => some v
        | none => st.tokenExpiresAt
      (true,
        { st with
            pageAccessToken := some page.accessToken
            pageId := some page.id
            pageName := some page.name
            tokenExpiresAt := newExp },
        [[PropKey.pageAccessToken, PropKey.pageId, PropKey.pageName,
          PropKey.tokenExpiresAt]])
  else
    match env.exchanged with
    | none => (false, st, [])
    | some tok =>
      match env.pages with
      | none => (false, st, [])
      | some [] => (false, st, [])
      | some (page :: _) =>
        (true,
          { st with
              userAccessToken := some tok.accessToken
              pageAccessToken := some page.accessToken
              pageId := some page.id
              pageName := some page.name
              tokenExpiresAt := refreshExpiresAtMs env.debugInfo tok.expiresIn env.nowMs },
          [[PropKey.userAccessToken, PropKey.pageAccessToken, PropKey.pageId,
            PropKey.pageName, PropKey.tokenExpiresAt]])

/-- Upstream oracles for one run of `setupTokensFromLongToken`
(src/unnamed/part_003 lines 402-475). -/
structure SetupLongEnv where
  tokenInfo : Option IntroInfo
  pages : Option (List Page)
  nowMs : Nat
deriving DecidableEq, Repr

/-- `setupTokensFromLongToken` (src/unnamed/part_003 lines 402-475): success
flag and the batch writes performed.  On any thrown step (empty input token,
failed introspection, failed page lookup, zero pages) the catch returns a
failure result and nothing has been written. -/
def setupTokensFromLongToken (longToken : String) (env : SetupLongEnv) :
    Bool × List (List PropKey) :=
  if longToken = "" then (false, [])
  else
    match env.tokenInfo with
    | none => (false, [])
    | some _ =>
      match env.pages with
      | none => (false, [])
      | some [] => (false, [])
      | some (_ :: _) =>
        (true,
          [[PropKey.userAccessToken, PropKey.pageAccessToken, PropKey.pageId,
            PropKey.pageName, PropKey.tokenExpiresAt, PropKey.appId,
            PropKey.appSecret]])

/-- Result of `getAppInfoFromToken` (src/TokenManager.js lines 21-58); the app
secret is usually unavailable (`none` also covers an empty string, which is
falsy where the source tests it). -/
structure AppInfo where
  appId : String
  appSecret : Option String
deriving DecidableEq, Repr

/-- Result of the legacy `oauth/access_token_info` introspection
(`getTokenInfoFromToken`, src/TokenManager.js lines 129-141); only the
`expires_in` field (read as `tokenInfo.expires_in || 0`) matters downstream. -/
structure LegacyTokenInfo where
  expiresIn : Nat
deriving DecidableEq, Repr

/-- The HTTP response of the long-lived exchange call: status code and the
parsed body fields.  A missing `access_token` in a 2xx body models the
`data.access_token` check failing. -/
structure ExchangeResponse where
  code : Nat
  accessToken : Option String
  expiresIn : Nat
  tokenType : Option String
deriving DecidableEq, Repr

/-- Oracles for one run of `exchangeToLongLivedToken`
(src/TokenManager.js lines 65-122).  Repeated calls to the same upstream
helper within one run are assumed to yield the same value. -/
structure ExchangeEnv where
  appInfo : Option AppInfo
  exchange : ExchangeResponse
  legacyInfo : Option LegacyTokenInfo
deriving DecidableEq, Repr

/-- Value returned by the exchanger on a non-raising path. -/
structure TokenResult where
  accessToken : String
  expiresIn : Nat
  tokenType : String
deriving DecidableEq, Repr

/-- Fallback of `exchangeToLongLivedToken`: wrap the original short token with
the legacy introspection's relative expiry.  When the introspection itself
throws, the error escapes the catch handler and the whole function raises
(`Except.error`). -/
def fallbackToShort (short : String) (legacy : Option LegacyTokenInfo) :
    Except Unit TokenResult :=
  match legacy with
  | none => Except.error ()
  | some info => Except.ok ⟨short, info.expiresIn, "bearer"⟩

/-- `exchangeToLongLivedToken` (src/TokenManager.js lines 65-122).  Every
failure before a successful exchange — app-info lookup throwing, missing app
secret, non-2xx exchange status, missing `access_token` in the body — funnels
into the introspection-based fallback. -/
def exchangeToLongLivedToken (short : String) (env : ExchangeEnv) :
    Except Unit TokenResult :=
  match env.appInfo with
  | none => fallbackToShort short env.legacyInfo
  | some ai =>
    match ai.appSecret with
    | none => fallbackToShort short env.legacyInfo
    | some _ =>
      if env.exchange.code < 200 ∨ 300 ≤ env.exchange.code then
        fallbackToShort short env.legacyInfo
      else
        match env.exchange.accessToken with
        | none => fallbackToShort short env.legacyInfo
        | some tk => Except.ok ⟨tk, env.exchange.expiresIn, env.exchange.tokenType.getD "bearer"⟩

/-- Oracles for one run of `setupTokensFromShortLived`
(src/TokenManager.js lines 363-441). -/
structure SetupShortEnv where
  legacyInfo : Option LegacyTokenInfo
  appInfo : Option AppInfo
  exchange : ExchangeResponse
  pages : Option (List Page)
  nowMs : Nat
deriving DecidableEq, Repr

/-- `setupTokensFromShortLived` (src/TokenManager.js lines 363-441): success
flag and batch writes.  A successful app-info lookup writes the app settings
batch before the exchange; a raising exchange or a failed/empty page lookup
aborts afterwards with that batch already written. -/
def setupTokensFromShortLived (short : String) (env : SetupShortEnv) :
    Bool × List (List PropKey) :=
  match env.legacyInfo with
  | none => (false, [])
  | some _ =>
    let appBatches : List (List PropKey) :=
      match env.appInfo with
      | none => []
      | some _ => [[PropKey.appId, PropKey.appSecret]]
    match exchangeToLongLivedToken short ⟨env.appInfo, env.exchange, env.legacyInfo⟩ with
    | Except.error _ => (false, appBatches)
    | Except.ok _ =>
      match env.pages with
      | none => (false, appBatches)
      | some [] => (false, appBatches)
      | some (_ :: _) =>
        (true,
          appBatches ++
            [[PropKey.userAccessToken, PropKey.pageAccessToken, PropKey.pageId,
              PropKey.pageName, PropKey.tokenExpiresAt]])

/-- One upstream HTTP response seen by a wrapped Graph-API call: status code,
whether the body contains the session-expired signature text, and the parsed
payload used on success. -/
structure UpstreamResponse where
  code : Nat
  sessionExpired : Bool
  payload : List String
deriving DecidableEq, Repr

/-- Errors a wrapped call surfaces: a plain upstream failure (the generic
throw with status and body) or the refresh-failed error thrown when the
automatic token refresh returns false. -/
inductive FetchErr
  | upstream (code : Nat)
  | refreshFailed
deriving DecidableEq, Repr

/-- The retry protocol shared verbatim by `fetchComments`, `fetchCommentsSince`,
`postReply`, `createPagePost`, `getPageInfo` and `fetchRecentPosts`
(src/unnamed/part_000): execute the call; on a 2xx return the payload; on a
400 whose body contains the session-expired text run `refreshToken` and, when
it succeeds, recursively re-execute the call with the refreshed token; when it
fails, throw the refresh-failed error; any other failure is thrown as an
upstream error.  The first list scripts the response of each successive
wrapped call, the second the outcome of each successive refresh; the returned
number counts the wrapped calls performed.  `none` means the scripts were too
short to settle the run. -/
def runFetch : List UpstreamResponse → List Bool →
    Option (Except FetchErr (List String) × Nat)
  | [], _ => none
  | r :: rs, refs =>
    if 200 ≤ r.code ∧ r.code < 300 then some (Except.ok r.payload, 1)
    else if r.code = 400 ∧ r.sessionExpired = true then
      match refs with
      | [] => none
      | b :: bs =>
        if b then
          match runFetch rs bs with
          | none => none
          | some (out, n) => some (out, n + 1)
        else some (Except.error FetchErr.refreshFailed, 1)
    else some (Except.error (FetchErr.upstream r.code), 1)

/-- The validity fields of a `/debug_token` introspection as read by
`isTokenValid(token)` (src/unnamed/part_003 lines 150-171): the tri-state
`is_valid` and the absolute expiry. -/
structure DebugValidityInfo where
  isValid : Option Bool
  expiresAt : Nat
deriving DecidableEq, Repr

/-- API-side validity check, `isTokenValid(token)` with a token supplied
(src/unnamed/part_003 lines 150-171): a throwing introspection is caught and
yields false; a boolean `is_valid` is decisive; otherwise a positive expiry is
compared against the 24-hour buffer in seconds, and a zero expiry means an
indefinite token, reported valid. -/
def isTokenValidApi (info? : Option DebugValidityInfo) (nowSec : Nat) : Bool :=
  match info? with
  | none => false
  | some i =>
    match i.isValid with
    | some b => b
    | none =>
      if 0 < i.expiresAt then decide ((i.expiresAt : Int) - (nowSec : Int) > 86400)
      else true

/-- Oracles for one run of `checkAndRefreshToken`
(src/unnamed/part_003 lines 560-583). -/
structure CheckEnv where
  debugInfo : Option DebugValidityInfo
  nowSec : Nat
  nowMs : Nat
  refreshEnv : RefreshEnv
deriving DecidableEq, Repr

/-- `checkAndRefreshToken` (src/unnamed/part_003 lines 560-583): returns the
store after the run, whether `refreshToken` was invoked, and how many upstream
introspection calls the validity check itself performed (the API-side check
runs exactly when a user token is stored; the storage-side check reads only
the store). -/
def checkAndRefreshToken (st : Store) (env : CheckEnv) : Store × Bool × Nat :=
  let hasUser := truthy st.userAccessToken
  let apiCalls : Nat := if hasUser then 1 else 0
  let validByApi := hasUser && isTokenValidApi env.debugInfo env.nowSec
  let validByStorage := isTokenValidStored st.tokenExpiresAt env.nowMs
  if (validByApi && validByStorage) = true then (st, false, apiCalls)
  else ((refreshToken st env.refreshEnv).2.1, true, apiCalls)

/-- A comment as consumed by `processComments` (src/unnamed/part_001). -/
structure CommentJs where
  id : String
  message : String
  fromName : String
deriving DecidableEq, Repr

/-- A keyword rule row (src/SheetManager.js `loadRules`). -/
structure Rule where
  enabled : Bool
  keyword : String
  template : String
deriving DecidableEq, Repr

/-- Substring occurrence over character lists, used to embed the JavaScript
`String.prototype.includes`. -/
def charsContain (s pat : List Char) : Bool :=
  match s with
  | [] => pat.isEmpty
  | c :: rest => pat.isPrefixOf (c :: rest) || charsContain rest pat

/-- Character-wise lowercasing, embedding `String.prototype.toLowerCase`. -/
def lowerChars (s : String) : List Char := s.toList.map Char.toLower

/-- `findMatchingRule` (src/unnamed/part_001 lines 51-57): first rule that is
enabled, has a nonempty keyword, and whose lowercased keyword occurs in the
lowercased message. -/
def findMatchingRule (message : String) (rules : List Rule) : Option Rule :=
  rules.find? fun r =>
    r.enabled && !r.keyword.isEmpty &&
      charsContain (lowerChars message) (lowerChars r.keyword)

/-- Observable side effects of the comment sweeps: a reply-post call to the
upstream API, an append to the processed-ids sheet, a log-sheet write with its
status. -/
inductive SweepEvent
  | replyPost (commentId : String)
  | processedAppend (commentId : String)
  | logWrite (commentId : String) (status : String)
deriving DecidableEq, Repr

/-- The comment id an event concerns. -/
def eventCommentId : SweepEvent → String
  | SweepEvent.replyPost i => i
  | SweepEvent.processedAppend i => i
  | SweepEvent.logWrite i _ => i

/-- The per-comment body of `processComments` (src/unnamed/part_001 lines
21-41), after the processed-set skip: no matching rule appends the id as
processed and logs a no-match; a match attempts the reply, and the oracle
`replyOk` says whether `postReply` succeeds (logging replied) or throws
(logging the error, with no processed append). -/
def processOneComment (c : CommentJs) (rules : List Rule) (replyOk : String → Bool) :
    List SweepEvent :=
  match findMatchingRule c.message rules with
  | none => [SweepEvent.processedAppend c.id, SweepEvent.logWrite c.id "no_match"]
  | some _ =>
    if replyOk c.id then
      [SweepEvent.replyPost c.id, SweepEvent.processedAppend c.id,
        SweepEvent.logWrite c.id "replied"]
    else
      [SweepEvent.replyPost c.id, SweepEvent.logWrite c.id "error"]

/-- `processComments` (src/unnamed/part_001 lines 14-43) as its event trace: a
comment whose id is in the processed set is skipped outright; the in-memory
processed set is not extended during the loop, matching the source. -/
def processComments (comments : List CommentJs) (rules : List Rule)
    (processedSet : List String) (replyOk : String → Bool) : List SweepEvent :=
  match comments with
  | [] => []
  | c :: rest =>
    if processedSet.contains c.id then processComments rest rules processedSet replyOk
    else processOneComment c rules replyOk ++ processComments rest rules processedSet replyOk

/-- A comment as consumed by the 12-hour sweep (src/コード.js), with its
creation time parsed to epoch milliseconds; 0 models a missing or unparseable
`created_time` (both falsy in the source check). -/
structure CommentTs where
  id : String
  message : String
  fromName : String
  createdMs : Nat
deriving DecidableEq, Repr

/-- The per-comment body of `replyUnrepliedCommentsLast12h`
(src/コード.js lines 155-184): skip on empty id, on membership in the
replied-ids set, on a missing or too-old creation time, and on no matching
rule; otherwise attempt the reply as in the main sweep. -/
def sweep12hOne (c : CommentTs) (rules : List Rule) (repliedSet : List String)
    (sinceMs : Nat) (replyOk : String → Bool) : List SweepEvent :=
  if c.id = "" then []
  else if repliedSet.contains c.id then []
  else if c.createdMs = 0 ∨ c.createdMs < sinceMs then []
  else
    match findMatchingRule c.message rules with
    | none => []
    | some _ =>
      if replyOk c.id then
        [SweepEvent.replyPost c.id, SweepEvent.processedAppend c.id,
          SweepEvent.logWrite c.id "replied"]
      else
        [SweepEvent.replyPost c.id, SweepEvent.logWrite c.id "error"]

/-- `replyUnrepliedCommentsLast12h` (src/コード.js lines 136-188) as its event
trace over the per-post comment lists; the replied-ids set is loaded once and
not extended during the run, matching the source. -/
def replyUnrepliedSweep (posts : List (List CommentTs)) (rules : List Rule)
    (repliedSet : List String) (sinceMs : Nat) (replyOk : String → Bool) :
    List SweepEvent :=
  (posts.map fun cs =>
    (cs.map fun c => sweep12hOne c rules repliedSet sinceMs replyOk).flatten).flatten

/-- Number of reply posts the trace performs for a given comment id. -/
def replyCount (events : List SweepEvent) (i : String) : Nat :=
  events.countP fun e => decide (e = SweepEvent.replyPost i)

/-- Events of the 12-hour sweep over an already-flattened comment list. -/
def flatSweepEvents (cs : List CommentTs) (rules : List Rule)
    (repliedSet : List String) (sinceMs : Nat) (replyOk : String → Bool) :
    List SweepEvent :=
  (cs.map fun c => sweep12hOne c rules repliedSet sinceMs replyOk).flatten

/-- A 400 response whose body carries the session-expired signature. -/
def sessionExpiredResp : UpstreamResponse := ⟨400, true, []⟩

/-- A successful upstream response with payload `["a"]`. -/
def okRespA : UpstreamResponse := ⟨200, false, ["a"]⟩

/-- A fully populated store with app credentials, used as a concrete input. -/
def exampleStore : Store :=
  ⟨some "u", some "p", some "pid", some "pn", some 200000000000, some "a", some "s"⟩

/-- A refresh environment whose page lookup returns the empty list. -/
def emptyPagesEnv : RefreshEnv := ⟨some ⟨"nt", 100, "bearer"⟩, some [], some ⟨0, 0, 0⟩, 0⟩

/-- A refresh environment where every step succeeds with one managed page. -/
def okRefreshEnv : RefreshEnv :=
  ⟨some ⟨"nt", 100, "bearer"⟩, some [⟨"pid2", "pn2", "pt2"⟩], none, 7⟩

/-- A check environment whose introspection reports the token valid. -/
def validCheckEnv : CheckEnv := ⟨some ⟨some true, 0⟩, 0, 0, ⟨none, none, none, 0⟩⟩

/-- An exchanger environment: the exchange call fails with HTTP 401 and the
legacy introspection fallback also fails. -/
def exchangeFailBothEnv : ExchangeEnv :=
  ⟨some ⟨"app1", some "sec"⟩, ⟨401, none, 0, none⟩, none⟩

/-- An exchanger environment: the exchange call fails with HTTP 401 but the
legacy introspection fallback succeeds with `expires_in = 77`. -/
def exchangeFailEnv : ExchangeEnv :=
  ⟨some ⟨"app1", some "sec"⟩, ⟨401, none, 0, none⟩, some ⟨77⟩⟩

/-- A setup-short environment on which onboarding runs to completion. -/
def okSetupShortEnv : SetupShortEnv :=
  ⟨some ⟨77⟩, some ⟨"app1", some "sec"⟩, ⟨200, some "ll", 5184000, some "bearer"⟩,
    some [⟨"pid2", "pn2", "pt2"⟩], 7⟩

/-- A concrete comment used to exhibit duplicate handling. -/
def dupComment : CommentJs := ⟨"c1", "hello", "n"⟩

/-- A rule matching the word hello. -/
def helloRule : Rule := ⟨true, "hello", "hi"⟩

/-- C5: the stored-expiry validity check classifies the chain as valid exactly
when the stored expiry minus the current time strictly exceeds the 24-hour
buffer; at exactly 24 hours remaining it is not valid, and an absent stored
expiry is never valid. -/
theorem C5_validity_boundary :
    (∀ (e? : Option Nat) (nowMs : Nat),
        isTokenValidStored e? nowMs = true ↔
          ∃ e, e? = some e ∧ (e : Int) - (nowMs : Int) > 86400000) ∧
    isTokenValidStored (some 86400005) 5 = false ∧
    (∀ nowMs : Nat, isTokenValidStored none nowMs = false) := by
  refine ⟨?_, by decide, fun _ => rfl⟩
  intro e? nowMs
  cases e? with
  | none => simp [isTokenValidStored]
  | some e => simp [isTokenValidStored]

/-- C8: the derived introspection fields — `expiresIn` is the floored-at-zero
difference when the absolute expiry is positive and zero otherwise, and
`isLongLived` holds exactly when the expiry is zero or more than 86400 seconds
away; in particular a zero `expires_at` yields long-lived with zero
`expiresIn`. -/
theorem C8_introspection_derived :
    (∀ e n : Nat, 0 < e → debugExpiresIn e n = max 0 ((e : Int) - (n : Int))) ∧
    (∀ e n : Nat, ¬ 0 < e → debugExpiresIn e n = 0) ∧
    (∀ e n : Nat, debugIsLongLived e n = true ↔
        (e = 0 ∨ (e : Int) - (n : Int) > 86400)) ∧
    (debugIsLongLived 0 12345 = true ∧ debugExpiresIn 0 12345 = 0) := by
  refine ⟨?_, ?_, ?_, by decide, by decide⟩
  · intro e n h
    simp [debugExpiresIn, h]
  · intro e n h
    simp [debugExpiresIn, h]
  · intro e n
    simp only [debugIsLongLived, Bool.or_eq_true, Bool.and_eq_true, decide_eq_true_eq]
    constructor
    · rintro (h | ⟨-, h2⟩)
      · exact Or.inl h
      · exact Or.inr h2
    · rintro (h | h)
      · exact Or.inl h
      · exact Or.inr ⟨by omega, h⟩

/-- C8 witness: the derived-field properties evaluated at `expires_at = 100000`
and `now = 1000`. -/
theorem C8_introspection_derived_witness :
    debugExpiresIn 100000 1000 = max 0 ((100000 : Int) - (1000 : Int)) ∧
    debugExpiresIn 0 1000 = 0 :=
  ⟨C8_introspection_derived.1 100000 1000 (by decide),
    C8_introspection_derived.2.1 0 1000 (by decide)⟩

/-- C1 counterexample: the long-token onboarding flow ignores the data-access
expiry — on an introspection with `dataAccessExpiresAt = 1` and
`expiresAt = 2` it stores the token expiry while the spec's reconciler demands
the data-access expiry; moreover `refreshToken` with no expiry signal at all
persists nothing where the reconciler demands `now + 60 days`. -/
theorem C1_reconcile_counterexample :
    setupLongExpiresAtMs ⟨1, 2, 0⟩ 0 = 2000 ∧
    reconcileSpec ⟨1, 2, 0⟩ 0 0 = 1000 ∧
    setupLongExpiresAtMs ⟨1, 2, 0⟩ 0 ≠ reconcileSpec ⟨1, 2, 0⟩ 0 0 ∧
    refreshExpiresAtMs (some ⟨0, 0, 0⟩) 0 5 = none ∧
    reconcileSpec ⟨0, 0, 0⟩ 0 5 = 5184000005 := by
  refine ⟨rfl, rfl, by decide, rfl, rfl⟩

/-- C1 amended: the reconciliation precedence holds exactly where each flow
implements it.  The credentialed refresh follows the first three reconciler
steps and agrees with the reconciler whenever any signal is positive (with no
signal it persists nothing instead of the 60-day default); the degraded
refresh follows the first two steps; long-token onboarding equals the
reconciler applied with the data-access expiry blanked out and the
introspection's relative expiry as fallback; short-token onboarding equals the
reconciler with no absolute signals and the exchange expiry as fallback only
when that exceeds 3600 seconds. -/
theorem C1_reconcile_amended :
    (∀ (info : IntroInfo) (fb nowMs : Nat),
        0 < info.dataAccessExpiresAt ∨ 0 < info.expiresAt ∨ 0 < fb →
        refreshExpiresAtMs (some info) fb nowMs = some (reconcileSpec info fb nowMs)) ∧
    (∀ (info : IntroInfo) (nowMs : Nat),
        0 < info.dataAccessExpiresAt ∨ 0 < info.expiresAt →
        introExpiryMs (some info) = some (reconcileSpec info 0 nowMs)) ∧
    (∀ (info : IntroInfo) (nowMs : Nat),
        setupLongExpiresAtMs info nowMs =
          reconcileSpec ⟨0, info.expiresAt, 0⟩ info.expiresIn nowMs) ∧
    (∀ (fb nowMs : Nat),
        setupShortExpiresAtMs fb nowMs =
          reconcileSpec ⟨0, 0, 0⟩ (if 3600 < fb then fb else 0) nowMs) := by
  refine ⟨?_, ?_, ?_, ?_⟩
  · intro info fb nowMs h
    by_cases h1 : 0 < info.dataAccessExpiresAt
    · simp [refreshExpiresAtMs, introExpiryMs, reconcileSpec, h1]
    · by_cases h2 : 0 < info.expiresAt
      · simp [refreshExpiresAtMs, introExpiryMs, reconcileSpec, h1, h2]
      · have h3 : 0 < fb := by omega
        simp [refreshExpiresAtMs, introExpiryMs, reconcileSpec, h1, h2, h3]
  · intro info nowMs h
    by_cases h1 : 0 < info.dataAccessExpiresAt
    · simp [introExpiryMs, reconcileSpec, h1]
    · have h2 : 0 < info.expiresAt := by omega
      simp [introExpiryMs, reconcileSpec, h1, h2]
  · intro info nowMs
    by_cases h1 : 0 < info.expiresAt <;> by_cases h2 : 0 < info.expiresIn <;>
      simp [setupLongExpiresAtMs, reconcileSpec, h1, h2]
  · intro fb nowMs
    by_cases h : 3600 < fb
    · have h0 : 0 < fb := by omega
      simp [setupShortExpiresAtMs, reconcileSpec, h, h0]
    · simp [setupShortExpiresAtMs, reconcileSpec, h]

/-- C1 witness: the amended reconciliation agreement at a data-access expiry
of 5 seconds. -/
theorem C1_reconcile_amended_witness :
    refreshExpiresAtMs (some ⟨5, 0, 0⟩) 0 0 = some (reconcileSpec ⟨5, 0, 0⟩ 0 0) :=
  C1_reconcile_amended.1 ⟨5, 0, 0⟩ 0 0 (Or.inl (by decide))

/-- C4 counterexample: with a present app secret, an exchange call answered
HTTP 401 and a legacy introspection that also fails, the exchanger raises
instead of falling back. -/
theorem C4_exchange_counterexample :
    exchangeToLongLivedToken "short1" exchangeFailBothEnv = Except.error () := rfl

/-- C4 amended: when the exchange path fails — the app-info lookup throws, the
app secret is unavailable, or the exchange call returns a non-2xx status — the
exchanger does not raise provided the legacy introspection fallback succeeds,
and returns the original short token with tokenType bearer and the
introspection's relative expiry. -/
theorem C4_exchange_amended :
    ∀ (short : String) (env : ExchangeEnv) (info : LegacyTokenInfo),
      env.legacyInfo = some info →
      (env.appInfo = none ∨
        (∃ ai, env.appInfo = some ai ∧ ai.appSecret = none) ∨
        env.exchange.code < 200 ∨ 300 ≤ env.exchange.code) →
      exchangeToLongLivedToken short env = Except.ok ⟨short, info.expiresIn, "bearer"⟩ := by
  rintro short ⟨appInfo, exch, legacy⟩ info hleg h
  subst hleg
  rcases h with h | ⟨ai, hai, hsec⟩ | h | h
  · subst h
    rfl
  · subst hai
    simp [exchangeToLongLivedToken, hsec, fallbackToShort]
  · rcases appInfo with _ | ai
    · rfl
    · rcases hsec : ai.appSecret with _ | sec
      · simp [exchangeToLongLivedToken, hsec, fallbackToShort]
      · have hc : exch.code < 200 ∨ 300 ≤ exch.code := Or.inl h
        simp [exchangeToLongLivedToken, hsec, hc, fallbackToShort]
  · rcases appInfo with _ | ai
    · rfl
    · rcases hsec : ai.appSecret with _ | sec
      · simp [exchangeToLongLivedToken, hsec, fallbackToShort]
      · have hc : exch.code < 200 ∨ 300 ≤ exch.code := Or.inr h
        simp [exchangeToLongLivedToken, hsec, hc, fallbackToShort]

/-- C4 witness: the amended fallback at an HTTP 401 exchange failure with a
succeeding introspection. -/
theorem C4_exchange_amended_witness :
    exchangeToLongLivedToken "short1" exchangeFailEnv =
      Except.ok ⟨"short1", 77, "bearer"⟩ :=
  C4_exchange_amended "short1" exchangeFailEnv ⟨77⟩ rfl (Or.inr (Or.inr (Or.inr (by decide))))

/-- C6: when the wrapped call fails with a 400 session-expired response and
the token refresh returns false, exactly one wrapped call is performed and the
refresh-failed error is raised — the operation is never retried. -/
theorem C6_refresh_failed_no_retry :
    ∀ (r : UpstreamResponse) (rs : List UpstreamResponse) (refs : List Bool),
      r.code = 400 → r.sessionExpired = true →
      runFetch (r :: rs) (false :: refs) =
        some (Except.error FetchErr.refreshFailed, 1) := by
  intro r rs refs h1 h2
  simp [runFetch, h1, h2]

/-- C6 witness: the single-call refresh-failed outcome on a concrete
session-expired response. -/
theorem C6_refresh_failed_no_retry_witness :
    runFetch [sessionExpiredResp] [false] =
      some (Except.error FetchErr.refreshFailed, 1) :=
  C6_refresh_failed_no_retry sessionExpiredResp [] [] rfl rfl

/-- C2 counterexample: after a session-expired failure and a successful
refresh, a second session-expired failure on the retried call is not surfaced
as an upstream failure — the code refreshes and retries again, performing
three wrapped calls and returning the third call's payload. -/
theorem C2_retry_counterexample :
    runFetch [sessionExpiredResp, sessionExpiredResp, okRespA] [true, true] =
      some (Except.ok ["a"], 3) ∧ (3 : Nat) ≠ 2 := by
  refine ⟨rfl, by decide⟩

/-- C2 amended: the retry is unbounded mutual recursion rather than a one-shot
retry — for every n, a run of n consecutive session-expired failures whose
refreshes all succeed, followed by a successful response, performs n + 1
wrapped calls and returns that response's payload. -/
theorem C2_retry_unbounded :
    ∀ (n : Nat) (payload : List String),
      runFetch (List.replicate n sessionExpiredResp ++ [⟨200, false, payload⟩])
          (List.replicate n true) =
        some (Except.ok payload, n + 1) := by
  intro n payload
  induction n with
  | zero => simp [runFetch]
  | succ m ih =>
    simp only [sessionExpiredResp] at ih ⊢
    simp [List.replicate_succ, runFetch, ih]

/-- C3: if the page lookup during refresh returns an empty page list, the
refresh returns false and performs no write at all — the store is returned
unchanged with an empty batch list. -/
theorem C3_refresh_empty_pages :
    ∀ (st : Store) (env : RefreshEnv),
      env.pages = some [] → refreshToken st env = (false, st, []) := by
  intro st env h
  unfold refreshToken
  rw [h]
  cases truthy st.userAccessToken with
  | false => rfl
  | true =>
    cases truthy st.appId && truthy st.appSecret with
    | false => rfl
    | true =>
      cases env.exchanged with
      | none => rfl
      | some tok => rfl

/-- C3 witness: the unchanged-store refresh failure at a concrete store and an
empty page list. -/
theorem C3_refresh_empty_pages_witness :
    refreshToken exampleStore emptyPagesEnv = (false, exampleStore, []) :=
  C3_refresh_empty_pages exampleStore emptyPagesEnv rfl

/-- C7 counterexample: with a valid stored chain and a valid introspection,
`checkAndRefreshToken` skips the refresh and leaves the store unchanged, but
each invocation — the second included — performs one upstream introspection
call, not zero. -/
theorem C7_idempotence_counterexample :
    checkAndRefreshToken exampleStore validCheckEnv = (exampleStore, false, 1) ∧
    checkAndRefreshToken (checkAndRefreshToken exampleStore validCheckEnv).1
        validCheckEnv = (exampleStore, false, 1) ∧
    (1 : Nat) ≠ 0 := by
  refine ⟨by decide, by decide, by decide⟩

/-- C7 amended: when the stored user token is present, the API-side check
reports the token valid and the stored expiry is beyond the buffer, the check
triggers no refresh and leaves the store unchanged, but performs exactly one
upstream introspection call (the source returns no value rather than true). -/
theorem C7_validity_check_behavior :
    ∀ (st : Store) (env : CheckEnv),
      truthy st.userAccessToken = true →
      isTokenValidApi env.debugInfo env.nowSec = true →
      isTokenValidStored st.tokenExpiresAt env.nowMs = true →
      checkAndRefreshToken st env = (st, false, 1) := by
  intro st env h1 h2 h3
  simp [checkAndRefreshToken, h1, h2, h3]

/-- C7 witness: the amended behavior at the concrete valid store and
environment. -/
theorem C7_validity_check_behavior_witness :
    checkAndRefreshToken exampleStore validCheckEnv = (exampleStore, false, 1) :=
  C7_validity_check_behavior exampleStore validCheckEnv (by decide) (by decide) (by decide)

/-- C9: in every store-writing flow — refresh and both onboarding setups — any
batch write that contains the page-token key also contains the page-id key, so
no reachable store state holds a page token without its page id. -/
theorem C9_page_token_with_page_id :
    ∀ (st : Store) (renv : RefreshEnv) (lt : String) (lenv : SetupLongEnv)
      (s : String) (senv : SetupShortEnv),
      (∀ b ∈ (refreshToken st renv).2.2,
          PropKey.pageAccessToken ∈ b → PropKey.pageId ∈ b) ∧
      (∀ b ∈ (setupTokensFromLongToken lt lenv).2,
          PropKey.pageAccessToken ∈ b → PropKey.pageId ∈ b) ∧
      (∀ b ∈ (setupTokensFromShortLived s senv).2,
          PropKey.pageAccessToken ∈ b → PropKey.pageId ∈ b) := by
  intro st renv lt lenv s senv
  refine ⟨?_, ?_, ?_⟩
  · cases h1 : truthy st.userAccessToken with
    | false => simp [refreshToken, h1]
    | true =>
      cases h2 : truthy st.appId && truthy st.appSecret with
      | false =>
        rcases hp : renv.pages with _ | ⟨_ | ⟨p, ps⟩⟩ <;>
          simp [refreshToken, h1, h2, hp]
      | true =>
        rcases hx : renv.exchanged with _ | tok
        · simp [refreshToken, h1, h2, hx]
        · rcases hp : renv.pages with _ | ⟨_ | ⟨p, ps⟩⟩ <;>
            simp [refreshToken, h1, h2, hx, hp]
  · by_cases h1 : lt = ""
    · simp [setupTokensFromLongToken, h1]
    · rcases ht : lenv.tokenInfo with _ | info
      · simp [setupTokensFromLongToken, h1, ht]
      · rcases hp : lenv.pages with _ | ⟨_ | ⟨p, ps⟩⟩ <;>
          simp [setupTokensFromLongToken, h1, ht, hp]
  · rcases hl : senv.legacyInfo with _ | info
    · simp [setupTokensFromShortLived, hl]
    · rcases ha : senv.appInfo with _ | ai
      · rcases hx : exchangeToLongLivedToken s ⟨senv.appInfo, senv.exchange, senv.legacyInfo⟩
            with e | t
        · rw [hl, ha] at hx
          simp [setupTokensFromShortLived, hl, ha, hx]
        · rw [hl, ha] at hx
          rcases hp : senv.pages with _ | ⟨_ | ⟨p, ps⟩⟩ <;>
            simp [setupTokensFromShortLived, hl, ha, hx, hp]
      · rcases hx : exchangeToLongLivedToken s ⟨senv.appInfo, senv.exchange, senv.legacyInfo⟩
            with e | t
        · rw [hl, ha] at hx
          simp [setupTokensFromShortLived, hl, ha, hx]
        · rw [hl, ha] at hx
          rcases hp : senv.pages with _ | ⟨_ | ⟨p, ps⟩⟩ <;>
            simp [setupTokensFromShortLived, hl, ha, hx, hp]

/-- C9 witness: the batch written by a fully successful refresh contains the
page-token key, and by the invariant also the page-id key. -/
theorem C9_page_token_with_page_id_witness :
    PropKey.pageId ∈
      [PropKey.userAccessToken, PropKey.pageAccessToken, PropKey.pageId,
        PropKey.pageName, PropKey.tokenExpiresAt] :=
  (C9_page_token_with_page_id exampleStore okRefreshEnv "t" ⟨none, none, 0⟩ "s"
      ⟨none, none, ⟨0, none, 0, none⟩, none, 0⟩).1
    [PropKey.userAccessToken, PropKey.pageAccessToken, PropKey.pageId,
      PropKey.pageName, PropKey.tokenExpiresAt]
    (by decide) (by decide)

/-- Every event emitted for one processed comment carries that comment's id. -/
theorem eventId_processOne {c : CommentJs} {rules : List Rule}
    {ok : String → Bool} {e : SweepEvent}
    (he : e ∈ processOneComment c rules ok) : eventCommentId e = c.id := by
  unfold processOneComment at he
  rcases hm : findMatchingRule c.message rules with _ | r <;> rw [hm] at he
  · simp at he
    rcases he with rfl | rfl <;> rfl
  · by_cases hok : ok c.id = true
    · simp [hok] at he
      rcases he with rfl | rfl | rfl <;> rfl
    · simp [hok] at he
      rcases he with rfl | rfl <;> rfl

/-- Reply counts add over concatenated traces. -/
theorem replyCount_append (a b : List SweepEvent) (i : String) :
    replyCount (a ++ b) i = replyCount a i + replyCount b i := by
  simp [replyCount, List.countP_append]

/-- One processed comment yields at most one reply post. -/
theorem replyCount_processOne_le (c : CommentJs) (rules : List Rule)
    (ok : String → Bool) (i : String) :
    replyCount (processOneComment c rules ok) i ≤ 1 := by
  unfold processOneComment
  rcases findMatchingRule c.message rules with _ | r
  · simp [replyCount, List.countP_cons]
  · by_cases hok : ok c.id = true
    · simp only [if_pos hok]
      simp [replyCount, List.countP_cons]
      split <;> simp
    · simp only [if_neg hok]
      simp [replyCount, List.countP_cons]
      split <;> simp

/-- One processed comment yields no reply post for a different id. -/
theorem replyCount_processOne_ne (c : CommentJs) (rules : List Rule)
    (ok : String → Bool) (i : String) (h : c.id ≠ i) :
    replyCount (processOneComment c rules ok) i = 0 := by
  refine List.countP_eq_zero.mpr ?_
  intro e he
  intro hpred
  have h1 : e = SweepEvent.replyPost i := of_decide_eq_true hpred
  have h2 : eventCommentId e = c.id := eventId_processOne he
  rw [h1] at h2
  exact h (h2.symm)

/-- A sweep over comments whose ids all differ from `i` posts no reply to
`i`. -/
theorem replyCount_processComments_zero (rules : List Rule) (pset : List String)
    (ok : String → Bool) (i : String) :
    ∀ comments : List CommentJs, i ∉ comments.map CommentJs.id →
      replyCount (processComments comments rules pset ok) i = 0 := by
  intro comments
  induction comments with
  | nil => intro _; rfl
  | cons c rest ih =>
    intro h
    simp only [List.map_cons, List.mem_cons, not_or] at h
    unfold processComments
    split
    · exact ih h.2
    · rw [replyCount_append, replyCount_processOne_ne _ _ _ _ (fun hc => h.1 hc.symm),
        ih h.2]

/-- Every event of one 12-hour-sweep comment carries that comment's id, and is
only emitted when the id is outside the replied set. -/
theorem eventId_sweep12hOne {c : CommentTs} {rules : List Rule}
    {rset : List String} {sinceMs : Nat} {ok : String → Bool} {e : SweepEvent}
    (he : e ∈ sweep12hOne c rules rset sinceMs ok) :
    eventCommentId e = c.id ∧ rset.contains c.id = false := by
  unfold sweep12hOne at he
  by_cases h1 : c.id = ""
  · rw [if_pos h1] at he
    simp at he
  · rw [if_neg h1] at he
    cases hb : rset.contains c.id with
    | true =>
      rw [hb] at he
      simp at he
    | false =>
      rw [hb] at he
      simp only [Bool.false_eq_true, if_false] at he
      by_cases h3 : c.createdMs = 0 ∨ c.createdMs < sinceMs
      · rw [if_pos h3] at he
        simp at he
      · rw [if_neg h3] at he
        rcases hm : findMatchingRule c.message rules with _ | r <;> rw [hm] at he
        · simp at he
        · by_cases hok : ok c.id = true
          · simp [hok] at he
            refine ⟨?_, rfl⟩
            rcases he with rfl | rfl | rfl <;> rfl
          · simp [hok] at he
            refine ⟨?_, rfl⟩
            rcases he with rfl | rfl <;> rfl

/-- One 12-hour-sweep comment yields at most one reply post. -/
theorem replyCount_sweep12hOne_le (c : CommentTs) (rules : List Rule)
    (rset : List String) (sinceMs : Nat) (ok : String → Bool) (i : String) :
    replyCount (sweep12hOne c rules rset sinceMs ok) i ≤ 1 := by
  unfold sweep12hOne
  by_cases h1 : c.id = ""
  · simp [h1, replyCount]
  · rw [if_neg h1]
    cases hb : rset.contains c.id with
    | true => simp [replyCount]
    | false =>
      simp only [Bool.false_eq_true, if_false]
      by_cases h3 : c.createdMs = 0 ∨ c.createdMs < sinceMs
      · simp [h3, replyCount]
      · rw [if_neg h3]
        rcases findMatchingRule c.message rules with _ | r
        · simp [replyCount]
        · by_cases hok : ok c.id = true
          · simp only [if_pos hok]
            simp [replyCount, List.countP_cons]
            split <;> simp
          · simp only [if_neg hok]
            simp [replyCount, List.countP_cons]
            split <;> simp

/-- One 12-hour-sweep comment yields no reply post for a different id. -/
theorem replyCount_sweep12hOne_ne (c : CommentTs) (rules : List Rule)
    (rset : List String) (sinceMs : Nat) (ok : String → Bool) (i : String)
    (h : c.id ≠ i) :
    replyCount (sweep12hOne c rules rset sinceMs ok) i = 0 := by
  refine List.countP_eq_zero.mpr ?_
  intro e he
  intro hpred
  have h1 : e = SweepEvent.replyPost i := of_decide_eq_true hpred
  have h2 := (eventId_sweep12hOne he).1
  rw [h1] at h2
  exact h (h2.symm)

/-- The nested per-post 12-hour sweep equals the sweep over the flattened
comment list. -/
theorem replyUnrepliedSweep_eq_flat (posts : List (List CommentTs))
    (rules : List Rule) (rset : List String) (sinceMs : Nat)
    (ok : String → Bool) :
    replyUnrepliedSweep posts rules rset sinceMs ok =
      flatSweepEvents posts.flatten rules rset sinceMs ok := by
  induction posts with
  | nil => rfl
  | cons cs rest ih =>
    simp only [replyUnrepliedSweep, flatSweepEvents, List.map_cons,
      List.flatten_cons, List.map_append, List.flatten_append] at ih ⊢
    rw [ih]

/-- A flattened 12-hour sweep over comments whose ids all differ from `i`
posts no reply to `i`. -/
theorem replyCount_flatSweep_zero (rules : List Rule) (rset : List String)
    (sinceMs : Nat) (ok : String → Bool) (i : String) :
    ∀ cs : List CommentTs, i ∉ cs.map CommentTs.id →
      replyCount (flatSweepEvents cs rules rset sinceMs ok) i = 0 := by
  intro cs
  induction cs with
  | nil => intro _; rfl
  | cons c rest ih =>
    intro h
    simp only [List.map_cons, List.mem_cons, not_or] at h
    simp only [flatSweepEvents, List.map_cons, List.flatten_cons]
    rw [replyCount_append, replyCount_sweep12hOne_ne _ _ _ _ _ _ (fun hc => h.1 hc.symm),
      Nat.zero_add]
    exact ih h.2

/-- Unfolding of the flattened sweep on a cons cell. -/
theorem flatSweepEvents_cons (c : CommentTs) (cs : List CommentTs)
    (rules : List Rule) (rset : List String) (sinceMs : Nat)
    (ok : String → Bool) :
    flatSweepEvents (c :: cs) rules rset sinceMs ok =
      sweep12hOne c rules rset sinceMs ok ++
        flatSweepEvents cs rules rset sinceMs ok := rfl

/-- No event of a flattened 12-hour sweep concerns an id in the replied set. -/
theorem flatSweep_not_replied (rules : List Rule) (rset : List String)
    (sinceMs : Nat) (ok : String → Bool) :
    ∀ (cs : List CommentTs) (e : SweepEvent),
      e ∈ flatSweepEvents cs rules rset sinceMs ok →
      rset.contains (eventCommentId e) = false := by
  intro cs
  induction cs with
  | nil => intro e he; simp [flatSweepEvents] at he
  | cons c rest ih =>
    intro e he
    rw [flatSweepEvents_cons] at he
    rcases List.mem_append.mp he with he1 | he1
    · obtain ⟨hid, hmem⟩ := eventId_sweep12hOne he1
      rw [hid]
      exact hmem
    · exact ih e he1

/-- A duplicate-free flattened 12-hour sweep posts at most one reply per
id. -/
theorem replyCount_flatSweep_le (rules : List Rule) (rset : List String)
    (sinceMs : Nat) (ok : String → Bool) (i : String) :
    ∀ cs : List CommentTs, (cs.map CommentTs.id).Nodup →
      replyCount (flatSweepEvents cs rules rset sinceMs ok) i ≤ 1 := by
  intro cs
  induction cs with
  | nil => intro _; simp [flatSweepEvents, replyCount]
  | cons c rest ih =>
    intro hnd
    simp only [List.map_cons, List.nodup_cons] at hnd
    rw [flatSweepEvents_cons, replyCount_append]
    by_cases hci : c.id = i
    · rw [replyCount_flatSweep_zero rules rset sinceMs ok i rest (hci ▸ hnd.1)]
      simpa using replyCount_sweep12hOne_le c rules rset sinceMs ok i
    · rw [replyCount_sweep12hOne_ne c rules rset sinceMs ok i hci]
      simpa using ih hnd.2

/-- C10 counterexample: the in-memory processed set is not extended during the
sweep, so a fetched list containing the same comment twice receives two reply
posts in one invocation. -/
theorem C10_duplicate_reply_counterexample :
    replyCount
        (processComments [dupComment, dupComment] [helloRule] [] (fun _ => true))
        "c1" = 2 ∧ (1 : Nat) < 2 := by
  refine ⟨by decide, by decide⟩

/-- C10 amended: comments whose ids are in the processed set (or the replied
set, for the 12-hour sweep) trigger no reply post, processed append or log
write; and provided the fetched lists contain no duplicate comment ids, every
comment triggers at most one reply post per invocation — with duplicates the
reply can repeat, since the in-memory skip set is not extended during the
sweep. -/
theorem C10_no_double_reply :
    (∀ (comments : List CommentJs) (rules : List Rule) (pset : List String)
        (ok : String → Bool), ∀ e ∈ processComments comments rules pset ok,
        pset.contains (eventCommentId e) = false) ∧
    (∀ (comments : List CommentJs) (rules : List Rule) (pset : List String)
        (ok : String → Bool) (i : String), (comments.map CommentJs.id).Nodup →
        replyCount (processComments comments rules pset ok) i ≤ 1) ∧
    (∀ (posts : List (List CommentTs)) (rules : List Rule) (rset : List String)
        (sinceMs : Nat) (ok : String → Bool),
        ∀ e ∈ replyUnrepliedSweep posts rules rset sinceMs ok,
        rset.contains (eventCommentId e) = false) ∧
    (∀ (posts : List (List CommentTs)) (rules : List Rule) (rset : List String)
        (sinceMs : Nat) (ok : String → Bool) (i : String),
        (posts.flatten.map CommentTs.id).Nodup →
        replyCount (replyUnrepliedSweep posts rules rset sinceMs ok) i ≤ 1) := by
  refine ⟨?_, ?_, ?_, ?_⟩
  · intro comments rules pset ok
    induction comments with
    | nil => intro e he; simp [processComments] at he
    | cons c rest ih =>
      intro e he
      simp only [processComments] at he
      cases hb : pset.contains c.id with
      | true =>
        rw [hb] at he
        rw [if_pos rfl] at he
        exact ih e he
      | false =>
        rw [hb] at he
        simp only [Bool.false_eq_true, if_false] at he
        rcases List.mem_append.mp he with he1 | he1
        · rw [eventId_processOne he1]
          exact hb
        · exact ih e he1
  · intro comments rules pset ok i hnd
    induction comments with
    | nil => simp [processComments, replyCount]
    | cons c rest ih =>
      simp only [List.map_cons, List.nodup_cons] at hnd
      unfold processComments
      split
      · exact ih hnd.2
      · rw [replyCount_append]
        by_cases hci : c.id = i
        · rw [replyCount_processComments_zero rules pset ok i rest (hci ▸ hnd.1)]
          simpa using replyCount_processOne_le c rules ok i
        · rw [replyCount_processOne_ne c rules ok i hci]
          simpa using ih hnd.2
  · intro posts rules rset sinceMs ok e he
    rw [replyUnrepliedSweep_eq_flat] at he
    exact flatSweep_not_replied rules rset sinceMs ok posts.flatten e he
  · intro posts rules rset sinceMs ok i hnd
    rw [replyUnrepliedSweep_eq_flat]
    exact replyCount_flatSweep_le rules rset sinceMs ok i posts.flatten hnd

/-- C10 witness: a duplicate-free single-comment sweep posts at most one reply
to the comment. -/
theorem C10_no_double_reply_witness :
    replyCount (processComments [dupComment] [helloRule] [] (fun _ => true)) "c1" ≤ 1 :=
  C10_no_double_reply.2.1 [dupComment] [helloRule] [] (fun _ => true) "c1" (by decide)

end AutoFB
